import Mathlib

/-
Verification of the multi-cluster consumer coordinator of the kafka-client
repository (package consumer, file multiclusterConsumer.go, and the
construction-time option surface in consumerOptions.go).

Modelling conventions:
- Go errors are modelled by their message string; a Go `error` result is an
  `Option String` with `none` standing for the nil error.
- Go maps handed to the coordinator are modelled as association lists, whose
  list order stands for one fixed iteration order of the Go map.
- External side effects on collaborators (per-cluster consumer start and stop,
  per-cluster offset reset, broker client close, closing the done channel) are
  recorded in an explicit `Effect` trace returned by each operation.
- Channels are modelled by their open or closed status.
- Observability collaborators (logger, metrics scope) are pure side channels
  excluded by the spec from the core contract; they are not modelled.
-/

namespace KafkaClient

/-- Data carried by kafka.Topic as used by this repository (fields from the
test file): a topic name, the cluster it lives on, and a broker list. -/
structure Topic where
  name : String
  cluster : String
  brokerList : List String
deriving DecidableEq

/-- kafka.ConsumerTopic: a primary topic together with its dead-letter topic. -/
structure ConsumerTopic where
  topic : Topic
  dlq : Topic
deriving DecidableEq

/-- kafka.OffsetRange: an opaque offset-range payload passed through unchanged
to the per-cluster consumer; modelled as a low and high offset. -/
structure OffsetRange where
  lowOffset : Int
  highOffset : Int
deriving DecidableEq

/-- Open or closed status of a Go channel. -/
inductive ChannelState where
  | opened
  | closed
deriving DecidableEq

/-- The per-cluster consumer, an external collaborator consumed through the
narrow interface of spec section 6: a start operation returning a Go error,
a stop operation (no result), and an offset-reset operation returning a Go
error. Its behaviour is abstract: `startErr` is the result its start
operation returns, and `resetOffsetResult` gives the result of its
offset-reset operation for given topic, partition and offset range. -/
structure ClusterConsumer where
  startErr : Option String
  resetOffsetResult : String → Int → OffsetRange → Option String

/-- The broker connection resource (sarama.Client) owned for closing at
shutdown; `closeErr` is the result its Close() would return, which the
coordinator swallows. -/
structure SaramaClient where
  closeErr : Option String

/-- Modelled from the spec: states of the lifecycle guard of section 4.1
(`internal/util` RunLifecycle is not part of the given sources). The
transient Starting phase is observable here because a failed start leaves the
guard past NotStarted, so that the subsequent Stop runs the teardown. -/
inductive LifecycleState where
  | notStarted
  | starting
  | running
  | stopped
deriving DecidableEq

/-- Modelled from the spec: the reusable start/stop state machine of spec
section 4.1, holding its name and current state. -/
structure RunLifecycle where
  name : String
  state : LifecycleState

/-- Modelled from the spec: a fresh lifecycle guard starts in NotStarted. -/
def NewRunLifecycle (name : String) : RunLifecycle :=
  { name := name, state := LifecycleState.notStarted }

/-- Externally visible side effects of coordinator operations on its
collaborators, in the order they are performed. -/
inductive Effect where
  | ccStart (cluster : String)
  | ccStop (cluster : String)
  | ccResetOffset (cluster topicName : String) (partition : Int) (offsets : OffsetRange)
  | clientClose (cluster : String)
  | closeDoneC
deriving DecidableEq

/-- Modelled from the spec: RunLifecycle.Start (section 4.1). If the guard is
past NotStarted it returns a "not started twice" error without invoking the
guarded function. Otherwise it invokes the guarded function exactly once:
on success the guard moves to Running; on failure it stays in the transient
Starting phase and the caller is responsible for moving it to Stopped via
Stop. -/
def RunLifecycle.Start (l : RunLifecycle) (fn : Unit → Option String × List Effect) :
    Option String × RunLifecycle × List Effect :=
  match l.state with
  | LifecycleState.notStarted =>
    match fn () with
    | (none, effs) => (none, { l with state := LifecycleState.running }, effs)
    | (some e, effs) => (some e, { l with state := LifecycleState.starting }, effs)
  | _ => (some ("lifecycle " ++ l.name ++ " cannot be started twice"), l, [])

/-- Modelled from the spec: RunLifecycle.Stop (section 4.1). If the guard is
already Stopped, or was never started, the teardown is not invoked; otherwise
the teardown runs exactly once and the guard moves to the terminal Stopped
state. The teardown may update a caller state of type σ. -/
def RunLifecycle.Stop {σ : Type} (l : RunLifecycle) (s : σ) (fn : σ → σ × List Effect) :
    RunLifecycle × σ × List Effect :=
  match l.state with
  | LifecycleState.notStarted => (l, s, [])
  | LifecycleState.stopped => (l, s, [])
  | _ =>
    match fn s with
    | (s2, effs) => ({ l with state := LifecycleState.stopped }, s2, effs)

/-- MultiClusterConsumer (multiclusterConsumer.go): the coordinator owning the
per-cluster consumers keyed by cluster name, the broker clients keyed by
cluster name, the shared outbound message channel, the done-signal channel and
the lifecycle guard. -/
structure MultiClusterConsumer where
  groupName : String
  topics : List ConsumerTopic
  clusterConsumerMap : List (String × ClusterConsumer)
  clusterToSaramaClientMap : List (String × SaramaClient)
  msgC : ChannelState
  doneC : ChannelState
  lifecycle : RunLifecycle

/-- NewMultiClusterConsumer: builds the coordinator over the given maps and
message channel, with a freshly made (open) done channel and a fresh lifecycle
guard named after the group. -/
def NewMultiClusterConsumer (groupName : String) (topics : List ConsumerTopic)
    (clusterConsumerMap : List (String × ClusterConsumer))
    (saramaClients : List (String × SaramaClient))
    (msgC : ChannelState) : MultiClusterConsumer :=
  { groupName := groupName
    topics := topics
    clusterConsumerMap := clusterConsumerMap
    clusterToSaramaClientMap := saramaClients
    msgC := msgC
    doneC := ChannelState.opened
    lifecycle := NewRunLifecycle (groupName ++ "-consumer") }

/-- Name returns the consumer group name used by this consumer. -/
def MultiClusterConsumer.Name (c : MultiClusterConsumer) : String :=
  c.groupName

/-- Topics returns the list of topics this consumer is consuming from. -/
def MultiClusterConsumer.Topics (c : MultiClusterConsumer) : List ConsumerTopic :=
  c.topics

/-- Closed returns the done channel (here, its open or closed status). -/
def MultiClusterConsumer.Closed (c : MultiClusterConsumer) : ChannelState :=
  c.doneC

/-- Messages returns the shared outbound message channel (here, its status). -/
def MultiClusterConsumer.Messages (c : MultiClusterConsumer) : ChannelState :=
  c.msgC

/-- Lookup of a cluster name in a map modelled as an association list
(the Go two-result map read `cc, ok := m[cluster]`). -/
def mapLookup {α : Type} : List (String × α) → String → Option α
  | [], _ => none
  | (k, v) :: rest, key => if k = key then some v else mapLookup rest key

/-- The guarded function of Start: iterate the cluster consumer map and call
each consumer's start operation, returning at the first failure. -/
def startLoop : List (String × ClusterConsumer) → Option String × List Effect
  | [] => (none, [])
  | (name, cc) :: rest =>
    match cc.startErr with
    | some e => (some e, [Effect.ccStart name])
    | none => ((startLoop rest).1, Effect.ccStart name :: (startLoop rest).2)

/-- The teardown body of Stop: stop every per-cluster consumer, close every
owned broker client, then close the done channel. -/
def MultiClusterConsumer.stopBody (c : MultiClusterConsumer) :
    MultiClusterConsumer × List Effect :=
  ({ c with doneC := ChannelState.closed },
    c.clusterConsumerMap.map (fun p => Effect.ccStop p.1)
      ++ c.clusterToSaramaClientMap.map (fun p => Effect.clientClose p.1)
      ++ [Effect.closeDoneC])

/-- Stop will stop the consumer: delegate the teardown body to the lifecycle
guard. Stop returns no error in the source; here it returns the updated
coordinator and the effect trace. -/
def MultiClusterConsumer.Stop (c : MultiClusterConsumer) :
    MultiClusterConsumer × List Effect :=
  match c.lifecycle.Stop c MultiClusterConsumer.stopBody with
  | (l, c2, effs) => ({ c2 with lifecycle := l }, effs)

/-- Start will fail to start if there is any cluster consumer that fails: it
delegates the start loop to the lifecycle guard and, when the guard returns an
error, invokes the coordinator's own Stop before returning that error. -/
def MultiClusterConsumer.Start (c : MultiClusterConsumer) :
    Option String × MultiClusterConsumer × List Effect :=
  match c.lifecycle.Start (fun _ => startLoop c.clusterConsumerMap) with
  | (none, l, effs) => (none, { c with lifecycle := l }, effs)
  | (some e, l, effs) =>
    (some e, ({ c with lifecycle := l }).Stop.1,
      effs ++ ({ c with lifecycle := l }).Stop.2)

/-- ResetOffset will reset the consumer offset for the specified cluster,
topic and partition: look the cluster up in the cluster consumer map, fail
with a lookup error when absent, and otherwise pass the call through to that
consumer's own offset-reset operation. -/
def MultiClusterConsumer.ResetOffset (c : MultiClusterConsumer)
    (cluster topic : String) (partition : Int) (offsetRange : OffsetRange) :
    Option String × List Effect :=
  match mapLookup c.clusterConsumerMap cluster with
  | none => (some "no cluster consumer found", [])
  | some cc => (cc.resetOffsetResult topic partition offsetRange,
      [Effect.ccResetOffset cluster topic partition offsetRange])

/-- The loop body of MergeDLQ: for each partition and offset range, call
ResetOffset against the given dead-letter cluster and topic name, collecting
a formatted failure string per failed partition and concatenating the effect
traces in iteration order. -/
def mergeDLQLoop (c : MultiClusterConsumer) (dlqCluster dlqName : String) :
    List (Int × OffsetRange) → List String × List Effect
  | [] => ([], [])
  | pr :: rest =>
    match (c.ResetOffset dlqCluster dlqName pr.1 pr.2).1 with
    | some e =>
      (("partition=" ++ toString pr.1 ++ " err=" ++ e)
          :: (mergeDLQLoop c dlqCluster dlqName rest).1,
        (c.ResetOffset dlqCluster dlqName pr.1 pr.2).2
          ++ (mergeDLQLoop c dlqCluster dlqName rest).2)
    | none =>
      ((mergeDLQLoop c dlqCluster dlqName rest).1,
        (c.ResetOffset dlqCluster dlqName pr.1 pr.2).2
          ++ (mergeDLQLoop c dlqCluster dlqName rest).2)

/-- MergeDLQ will merge the offset range for each partition of the DLQ topic
for the specified ConsumerTopic: attempt a reset of every partition against
the topic's dead-letter cluster and name, and return nil when no failure was
collected, otherwise a single aggregate error joining the per-partition
failure strings with commas. -/
def MultiClusterConsumer.MergeDLQ (c : MultiClusterConsumer)
    (topic : ConsumerTopic) (offsetRanges : List (Int × OffsetRange)) :
    Option String × List Effect :=
  if (mergeDLQLoop c topic.dlq.cluster topic.dlq.name offsetRanges).1 = [] then
    (none, (mergeDLQLoop c topic.dlq.cluster topic.dlq.name offsetRanges).2)
  else
    (some ("DLQ merge failed for "
        ++ String.intercalate ","
          (mergeDLQLoop c topic.dlq.cluster topic.dlq.name offsetRanges).1),
      (mergeDLQLoop c topic.dlq.cluster topic.dlq.name offsetRanges).2)

/-- Modelled from the spec: one entry of the partial-construction error
record, a (topic, cause) pair describing why a cluster's consumer could not
be constructed (the ConsumerError type is not part of the given sources). -/
structure ConsumerError where
  topic : String
  cause : String
deriving DecidableEq

/-- Modelled from the spec: the ordered error record attached to the
partial-construction option (the consumerErrorList type is not part of the
given sources; its `errs` field name is taken from its use in
consumerOptions.go). -/
structure ConsumerErrorList where
  errs : List ConsumerError
deriving DecidableEq

/-- The ConsumerOption interface of consumerOptions.go. Its implementor in
the given sources is the partialConstruction struct, holding the enabled flag
and a possibly nil pointer to the attached error record; every other
implementor of the interface is collapsed into one other-option case, since
PartialConstructionError distinguishes options only by a type assertion. -/
inductive ConsumerOption where
  | PartialConstructionOpt (enabled : Bool) (errs : Option ConsumerErrorList)
  | OtherOpt
deriving DecidableEq

/-- Result of a Go function call that may terminate abnormally: either a
returned value or a nil-pointer dereference runtime failure. -/
inductive GoResult (α : Type) where
  | ret (val : α)
  | nilDeref
deriving DecidableEq

/-- EnablePartialConstruction returns a partial-construction option with the
enabled flag set and no error record attached yet (a nil errs pointer). -/
def EnablePartialConstruction : ConsumerOption :=
  ConsumerOption.PartialConstructionOpt true none

/-- PartialConstructionError: type-asserts the option to the
partial-construction struct, returning a nil list when the assertion fails,
and otherwise reading the errs field through the errs pointer — which is a
nil-pointer dereference when no error record has been attached. -/
def PartialConstructionError (option : ConsumerOption) :
    GoResult (List ConsumerError) :=
  match option with
  | ConsumerOption.PartialConstructionOpt _ none => GoResult.nilDeref
  | ConsumerOption.PartialConstructionOpt _ (some el) => GoResult.ret el.errs
  | ConsumerOption.OtherOpt => GoResult.ret []

/-- One call of the public coordinator surface (spec section 6). -/
inductive Op where
  | start
  | stop
  | resetOffset (cluster topicName : String) (partition : Int) (offsets : OffsetRange)
  | mergeDLQ (topic : ConsumerTopic) (ranges : List (Int × OffsetRange))
  | name
  | topics
  | closed
  | messages
deriving DecidableEq

/-- Apply one coordinator call, returning the resulting coordinator state and
the effect trace of the call. The pure accessors Name, Topics, Closed and
Messages read a field and have no effects; ResetOffset and MergeDLQ assign no
coordinator field in the source, so they return the coordinator unchanged. -/
def applyOpTrace (c : MultiClusterConsumer) : Op → MultiClusterConsumer × List Effect
  | Op.start => ((c.Start).2.1, (c.Start).2.2)
  | Op.stop => c.Stop
  | Op.resetOffset cluster topicName partition offsets =>
    (c, (c.ResetOffset cluster topicName partition offsets).2)
  | Op.mergeDLQ topic ranges => (c, (c.MergeDLQ topic ranges).2)
  | Op.name => (c, [])
  | Op.topics => (c, [])
  | Op.closed => (c, [])
  | Op.messages => (c, [])

/-- Run a sequence of coordinator calls, concatenating the effect traces. -/
def runOpsTrace (c : MultiClusterConsumer) : List Op → MultiClusterConsumer × List Effect
  | [] => (c, [])
  | op :: ops =>
    ((runOpsTrace (applyOpTrace c op).1 ops).1,
      (applyOpTrace c op).2 ++ (runOpsTrace (applyOpTrace c op).1 ops).2)

/-- The sequence of coordinator states visited while running a sequence of
calls, starting state included. -/
def trajectory (c : MultiClusterConsumer) : List Op → List MultiClusterConsumer
  | [] => [c]
  | op :: ops => c :: trajectory (applyOpTrace c op).1 ops

/-- Number of open-to-closed transitions of the done channel along a sequence
of coordinator states. -/
def doneTransitions : List MultiClusterConsumer → Nat
  | c1 :: c2 :: rest =>
    (if c1.doneC = ChannelState.opened ∧ c2.doneC = ChannelState.closed then 1 else 0)
      + doneTransitions (c2 :: rest)
  | _ => 0

/-- The per-partition failure entries MergeDLQ is specified to report: one
formatted string for each partition of the input whose reset, against the
dead-letter cluster and name of the topic, fails. -/
def mergeDLQFailureEntries (c : MultiClusterConsumer) (topic : ConsumerTopic)
    (offsetRanges : List (Int × OffsetRange)) : List String :=
  offsetRanges.filterMap (fun pr =>
    ((c.ResetOffset topic.dlq.cluster topic.dlq.name pr.1 pr.2).1).map
      (fun e => "partition=" ++ toString pr.1 ++ " err=" ++ e))

/-- A concrete offset range used by the concrete instantiations below. -/
def testRange : OffsetRange :=
  { lowOffset := 0, highOffset := 100 }

/-- A consumer whose start and offset-reset operations always succeed. -/
def okCC : ClusterConsumer :=
  { startErr := none, resetOffsetResult := fun _ _ _ => none }

/-- A consumer whose start operation fails. -/
def failStartCC : ClusterConsumer :=
  { startErr := some "start failed", resetOffsetResult := fun _ _ _ => none }

/-- A consumer whose offset-reset operation always fails. -/
def failResetCC : ClusterConsumer :=
  { startErr := none, resetOffsetResult := fun _ _ _ => some "boom" }

/-- A broker client whose close reports an error (which Stop swallows). -/
def testClient : SaramaClient :=
  { closeErr := some "close failed" }

/-- The consumer topic of the unit tests: primary topic on one cluster and a
dead-letter topic on the dlq-cluster. -/
def testTopic : ConsumerTopic :=
  { topic := { name := "unit-test", cluster := "production-cluster", brokerList := [] }
    dlq := { name := "unit-test-dlq", cluster := "dlq-cluster", brokerList := [] } }

/-- A fresh coordinator with one healthy and one start-failing consumer. -/
def cStartErr : MultiClusterConsumer :=
  NewMultiClusterConsumer "unit-test-cg" [testTopic]
    [("a", okCC), ("b", failStartCC)] [("a", testClient)] ChannelState.opened

/-- A fresh coordinator whose dlq-cluster consumer fails every reset. -/
def cReset : MultiClusterConsumer :=
  NewMultiClusterConsumer "unit-test-cg" [testTopic]
    [("dlq-cluster", failResetCC)] [] ChannelState.opened

/-- A fresh coordinator with no consumers and no clients. -/
def cEmpty : MultiClusterConsumer :=
  NewMultiClusterConsumer "unit-test-cg" [] [] [] ChannelState.opened

/-- The coordinator cStartErr once its guard has reached the running phase. -/
def cActive : MultiClusterConsumer :=
  { cStartErr with
    lifecycle := { name := "unit-test-cg-consumer", state := LifecycleState.running } }

/-- When the lifecycle guard was never started or is already stopped, Stop is
a no-op: the teardown does not run and no effect is emitted. -/
lemma Stop_inactive (c : MultiClusterConsumer)
    (h : c.lifecycle.state = LifecycleState.notStarted ∨
      c.lifecycle.state = LifecycleState.stopped) :
    c.Stop = (c, []) := by
  rcases h with h | h <;>
    simp only [MultiClusterConsumer.Stop, RunLifecycle.Stop, h]

/-- When the lifecycle guard is in the starting or running phase, Stop runs
the teardown body: every consumer is stopped, every client is closed, the
done channel is closed, and the guard moves to Stopped. -/
lemma Stop_active (c : MultiClusterConsumer)
    (h : c.lifecycle.state = LifecycleState.starting ∨
      c.lifecycle.state = LifecycleState.running) :
    c.Stop = ({ c with
        doneC := ChannelState.closed
        lifecycle := { c.lifecycle with state := LifecycleState.stopped } },
      c.clusterConsumerMap.map (fun p => Effect.ccStop p.1)
        ++ c.clusterToSaramaClientMap.map (fun p => Effect.clientClose p.1)
        ++ [Effect.closeDoneC]) := by
  rcases h with h | h <;>
    simp only [MultiClusterConsumer.Stop, RunLifecycle.Stop,
      MultiClusterConsumer.stopBody, h]

/-- When the guard is fresh and the start loop succeeds, Start returns nil,
moves the guard to Running, and its effects are exactly the loop effects. -/
lemma Start_notStarted_ok (c : MultiClusterConsumer)
    (h : c.lifecycle.state = LifecycleState.notStarted)
    (hl : (startLoop c.clusterConsumerMap).1 = none) :
    c.Start = (none,
      { c with lifecycle := { c.lifecycle with state := LifecycleState.running } },
      (startLoop c.clusterConsumerMap).2) := by
  simp only [MultiClusterConsumer.Start, RunLifecycle.Start, h]
  rcases hsl : startLoop c.clusterConsumerMap with ⟨r, effs⟩
  rw [hsl] at hl
  obtain rfl : r = none := hl
  rfl

/-- When the guard is fresh and the start loop fails with an error, Start
returns that error and, before returning, runs the coordinator's own Stop:
the guard ends Stopped, the done channel is closed, and the effects are the
loop effects followed by the full teardown. -/
lemma Start_notStarted_err (c : MultiClusterConsumer) (e : String)
    (h : c.lifecycle.state = LifecycleState.notStarted)
    (hl : (startLoop c.clusterConsumerMap).1 = some e) :
    c.Start = (some e,
      { c with
        doneC := ChannelState.closed
        lifecycle := { c.lifecycle with state := LifecycleState.stopped } },
      (startLoop c.clusterConsumerMap).2
        ++ (c.clusterConsumerMap.map (fun p => Effect.ccStop p.1)
          ++ c.clusterToSaramaClientMap.map (fun p => Effect.clientClose p.1)
          ++ [Effect.closeDoneC])) := by
  have hstop := Stop_active
    { c with lifecycle := { c.lifecycle with state := LifecycleState.starting } }
    (Or.inl rfl)
  simp only [MultiClusterConsumer.Start, RunLifecycle.Start, h]
  rcases hsl : startLoop c.clusterConsumerMap with ⟨r, effs⟩
  rw [hsl] at hl
  obtain rfl : r = some e := hl
  simp only [hstop]

/-- When the guard is past NotStarted, Start returns the guard error without
invoking any consumer start, and still invokes the coordinator's own Stop. -/
lemma Start_already (c : MultiClusterConsumer)
    (h : c.lifecycle.state = LifecycleState.starting ∨
      c.lifecycle.state = LifecycleState.running ∨
      c.lifecycle.state = LifecycleState.stopped) :
    c.Start = (some ("lifecycle " ++ c.lifecycle.name ++ " cannot be started twice"),
      (c.Stop).1, (c.Stop).2) := by
  rcases h with h | h | h <;>
    simp only [MultiClusterConsumer.Start, RunLifecycle.Start, h] <;> rfl

/-- The error returned by the start loop is the start error of the first
consumer, in iteration order, whose start operation fails. -/
lemma startLoop_fst_eq (l : List (String × ClusterConsumer)) :
    (startLoop l).1 = l.findSome? (fun p => p.2.startErr) := by
  induction l with
  | nil => rfl
  | cons p rest ih =>
    obtain ⟨name, cc⟩ := p
    cases hp : cc.startErr <;> simp [startLoop, List.findSome?, hp, ih]

/-- The start loop returns nil exactly when every consumer's start operation
returns nil. -/
lemma startLoop_none_iff (l : List (String × ClusterConsumer)) :
    (startLoop l).1 = none ↔ ∀ p ∈ l, p.2.startErr = none := by
  induction l with
  | nil => simp [startLoop]
  | cons p rest ih =>
    obtain ⟨name, cc⟩ := p
    cases hp : cc.startErr <;> simp [startLoop, hp, ih]

/-- On a fresh guard, the error Start returns is the error of the start loop,
whether the loop succeeds or fails. -/
lemma Start_fst (c : MultiClusterConsumer)
    (h : c.lifecycle.state = LifecycleState.notStarted) :
    (c.Start).1 = (startLoop c.clusterConsumerMap).1 := by
  cases hl : (startLoop c.clusterConsumerMap).1 with
  | none => rw [Start_notStarted_ok c h hl]
  | some e => rw [Start_notStarted_err c e h hl]

/-- Claim C1: on a freshly constructed coordinator, Start() returns nil if
and only if the start operation of every registered per-cluster consumer
returns nil; when some start fails, Start() returns the error of the first
failing consumer encountered in iteration order; and with zero registered
cluster consumers Start() succeeds vacuously. -/
theorem start_ok_iff_all_consumers_ok (c : MultiClusterConsumer)
    (h : c.lifecycle.state = LifecycleState.notStarted) :
    ((c.Start).1 = none ↔ ∀ p ∈ c.clusterConsumerMap, p.2.startErr = none)
    ∧ (c.Start).1 = c.clusterConsumerMap.findSome? (fun p => p.2.startErr)
    ∧ (c.clusterConsumerMap = [] → (c.Start).1 = none) := by
  refine ⟨?_, ?_, ?_⟩
  · rw [Start_fst c h]; exact startLoop_none_iff c.clusterConsumerMap
  · rw [Start_fst c h]; exact startLoop_fst_eq c.clusterConsumerMap
  · intro hempty
    rw [Start_fst c h, hempty]
    rfl

/-- Claim C2: whenever Start() returns an error on a coordinator whose guard
is not already in the terminal stopped state, the coordinator invokes its own
Stop() before returning, so the effect trace of the Start call contains the
stop operation of every registered per-cluster consumer, including those
whose start succeeded in earlier loop iterations. -/
theorem start_error_stops_every_consumer (c : MultiClusterConsumer) (e : String)
    (h : c.lifecycle.state ≠ LifecycleState.stopped)
    (he : (c.Start).1 = some e) :
    ∀ p ∈ c.clusterConsumerMap, Effect.ccStop p.1 ∈ (c.Start).2.2 := by
  intro p hp
  have hmem : Effect.ccStop p.1 ∈ c.clusterConsumerMap.map (fun q => Effect.ccStop q.1) :=
    List.mem_map_of_mem _ hp
  cases hstate : c.lifecycle.state with
  | stopped => exact absurd hstate h
  | notStarted =>
    cases hl : (startLoop c.clusterConsumerMap).1 with
    | none =>
      rw [Start_notStarted_ok c hstate hl] at he
      exact absurd he (by simp)
    | some e2 =>
      rw [Start_notStarted_err c e2 hstate hl]
      simp only [List.mem_append, List.mem_cons]
      exact Or.inr (Or.inl (Or.inl hmem))
  | starting =>
    rw [Start_already c (Or.inl hstate), Stop_active c (Or.inl hstate)]
    simp only [List.mem_append]
    exact Or.inl (Or.inl hmem)
  | running =>
    rw [Start_already c (Or.inr (Or.inl hstate)), Stop_active c (Or.inr hstate)]
    simp only [List.mem_append]
    exact Or.inl (Or.inl hmem)

/-- Claim C3: for a cluster name absent from the cluster-consumer map,
ResetOffset returns the "no cluster consumer found" lookup error and invokes
no per-cluster consumer (its effect trace is empty); for a registered cluster
name it passes the call through to that consumer's own offset-reset operation
and returns its result unchanged. -/
theorem resetOffset_lookup_spec (c : MultiClusterConsumer) (cluster topic : String)
    (partition : Int) (offsetRange : OffsetRange) :
    (mapLookup c.clusterConsumerMap cluster = none →
      c.ResetOffset cluster topic partition offsetRange
        = (some "no cluster consumer found", []))
    ∧ (∀ cc, mapLookup c.clusterConsumerMap cluster = some cc →
      c.ResetOffset cluster topic partition offsetRange
        = (cc.resetOffsetResult topic partition offsetRange,
          [Effect.ccResetOffset cluster topic partition offsetRange])) := by
  constructor
  · intro h
    simp only [MultiClusterConsumer.ResetOffset, h]
  · intro cc h
    simp only [MultiClusterConsumer.ResetOffset, h]

/-- The failure strings collected by the MergeDLQ loop are exactly the
formatted entries of the partitions whose reset fails. -/
lemma mergeDLQLoop_fst_eq (c : MultiClusterConsumer) (dlqCluster dlqName : String)
    (l : List (Int × OffsetRange)) :
    (mergeDLQLoop c dlqCluster dlqName l).1
      = l.filterMap (fun pr =>
          ((c.ResetOffset dlqCluster dlqName pr.1 pr.2).1).map
            (fun e => "partition=" ++ toString pr.1 ++ " err=" ++ e)) := by
  induction l with
  | nil => rfl
  | cons pr rest ih =>
    cases hp : (c.ResetOffset dlqCluster dlqName pr.1 pr.2).1 <;>
      simp [mergeDLQLoop, hp, ih]

/-- The MergeDLQ loop delegates a reset for every partition of the input, in
iteration order, regardless of failures of earlier partitions: its effect
trace is the concatenation of the per-partition ResetOffset traces. -/
lemma mergeDLQLoop_snd_eq (c : MultiClusterConsumer) (dlqCluster dlqName : String)
    (l : List (Int × OffsetRange)) :
    (mergeDLQLoop c dlqCluster dlqName l).2
      = (l.map (fun pr => (c.ResetOffset dlqCluster dlqName pr.1 pr.2).2)).flatten := by
  induction l with
  | nil => rfl
  | cons pr rest ih =>
    cases hp : (c.ResetOffset dlqCluster dlqName pr.1 pr.2).1 <;>
      simp [mergeDLQLoop, hp, ih]

/-- The error component of MergeDLQ depends only on the collected failure
list, and its effect trace is the loop's effect trace on either branch. -/
lemma MergeDLQ_eq (c : MultiClusterConsumer) (topic : ConsumerTopic)
    (offsetRanges : List (Int × OffsetRange)) :
    c.MergeDLQ topic offsetRanges
      = (if (mergeDLQLoop c topic.dlq.cluster topic.dlq.name offsetRanges).1 = []
          then none
          else some ("DLQ merge failed for "
            ++ String.intercalate ","
              (mergeDLQLoop c topic.dlq.cluster topic.dlq.name offsetRanges).1),
        (mergeDLQLoop c topic.dlq.cluster topic.dlq.name offsetRanges).2) := by
  simp only [MultiClusterConsumer.MergeDLQ]
  split <;> rfl

/-- Claim C4: MergeDLQ attempts a reset for every partition of the input map
(its effect trace concatenates one per-partition delegation for every
partition, so a failure on one partition does not prevent the rest); it
returns nil exactly when no per-partition reset failed, in particular for the
empty map; and otherwise it returns one aggregate error joining the entries
"partition=n err=e" of the failed partitions with commas. -/
theorem mergeDLQ_error_aggregation (c : MultiClusterConsumer)
    (topic : ConsumerTopic) (offsetRanges : List (Int × OffsetRange)) :
    ((c.MergeDLQ topic offsetRanges).1 = none ↔
      ∀ pr ∈ offsetRanges,
        (c.ResetOffset topic.dlq.cluster topic.dlq.name pr.1 pr.2).1 = none)
    ∧ (c.MergeDLQ topic offsetRanges).1
      = (if mergeDLQFailureEntries c topic offsetRanges = [] then none
        else some ("DLQ merge failed for "
          ++ String.intercalate "," (mergeDLQFailureEntries c topic offsetRanges)))
    ∧ (c.MergeDLQ topic []).1 = none
    ∧ (c.MergeDLQ topic offsetRanges).2
      = (offsetRanges.map (fun pr =>
          (c.ResetOffset topic.dlq.cluster topic.dlq.name pr.1 pr.2).2)).flatten := by
  refine ⟨?_, ?_, ?_, ?_⟩
  · rw [MergeDLQ_eq]
    simp only [mergeDLQLoop_fst_eq]
    constructor
    · intro h pr hpr
      by_contra hne
      cases hres : (c.ResetOffset topic.dlq.cluster topic.dlq.name pr.1 pr.2).1 with
      | none => exact hne hres
      | some e =>
        split at h
        · next hnil =>
          have : ((c.ResetOffset topic.dlq.cluster topic.dlq.name pr.1 pr.2).1).map
              (fun x => "partition=" ++ toString pr.1 ++ " err=" ++ x) = none := by
            exact List.forall_none_of_filterMap_eq_nil hnil _ hpr
          rw [hres] at this
          simp at this
        · simp at h
    · intro h
      have hnil : (offsetRanges.filterMap (fun pr =>
          ((c.ResetOffset topic.dlq.cluster topic.dlq.name pr.1 pr.2).1).map
            (fun e => "partition=" ++ toString pr.1 ++ " err=" ++ e))) = [] := by
        rw [List.filterMap_eq_nil_iff]
        intro pr hpr
        rw [h pr hpr]
        rfl
      rw [if_pos hnil]
  · rw [MergeDLQ_eq]
    simp only [mergeDLQLoop_fst_eq, mergeDLQFailureEntries]
  · rfl
  · rw [MergeDLQ_eq]
    exact mergeDLQLoop_snd_eq c topic.dlq.cluster topic.dlq.name offsetRanges

/-- Mapping each element to a singleton list and flattening is the plain map. -/
lemma flatten_map_singleton {α β : Type} (l : List α) (f : α → β) :
    (l.map (fun a => [f a])).flatten = l.map f := by
  induction l with
  | nil => rfl
  | cons a rest ih => simp [ih]

/-- Claim C5: when the dead-letter cluster of the topic is registered, the
effect trace of MergeDLQ consists of exactly one offset-reset delegation per
partition of the input, each against the dead-letter cluster name and
dead-letter topic name of the given topic with that partition's offset
range. -/
theorem mergeDLQ_resets_dlq_topic (c : MultiClusterConsumer)
    (topic : ConsumerTopic) (offsetRanges : List (Int × OffsetRange))
    (cc : ClusterConsumer)
    (h : mapLookup c.clusterConsumerMap topic.dlq.cluster = some cc) :
    (c.MergeDLQ topic offsetRanges).2
      = offsetRanges.map (fun pr =>
          Effect.ccResetOffset topic.dlq.cluster topic.dlq.name pr.1 pr.2) := by
  rw [MergeDLQ_eq]
  rw [mergeDLQLoop_snd_eq]
  have hreset : ∀ pr : Int × OffsetRange,
      (c.ResetOffset topic.dlq.cluster topic.dlq.name pr.1 pr.2).2
        = [Effect.ccResetOffset topic.dlq.cluster topic.dlq.name pr.1 pr.2] := by
    intro pr
    simp only [MultiClusterConsumer.ResetOffset, h]
  calc (offsetRanges.map (fun pr =>
          (c.ResetOffset topic.dlq.cluster topic.dlq.name pr.1 pr.2).2)).flatten
      = (offsetRanges.map (fun pr =>
          [Effect.ccResetOffset topic.dlq.cluster topic.dlq.name pr.1 pr.2])).flatten := by
        simp only [hreset]
    _ = offsetRanges.map (fun pr =>
          Effect.ccResetOffset topic.dlq.cluster topic.dlq.name pr.1 pr.2) :=
        flatten_map_singleton _ _

/-- Claim C6: Stop has no error to return, and when the guard lets the
teardown run, the teardown performs, in order, the stop of every registered
per-cluster consumer, then the close of every owned broker client, then the
close of the done channel; the effect trace and resulting state do not depend
on the close results of the broker clients nor on any consumer stop outcome
(the model gives those operations no error channel), so such failures neither
abort the teardown nor surface. When the guard was never started or already
stopped the teardown does not run at all. -/
theorem stop_teardown_spec (c : MultiClusterConsumer) :
    ((c.lifecycle.state = LifecycleState.starting ∨
        c.lifecycle.state = LifecycleState.running) →
      c.Stop = ({ c with
          doneC := ChannelState.closed
          lifecycle := { c.lifecycle with state := LifecycleState.stopped } },
        c.clusterConsumerMap.map (fun p => Effect.ccStop p.1)
          ++ c.clusterToSaramaClientMap.map (fun p => Effect.clientClose p.1)
          ++ [Effect.closeDoneC]))
    ∧ ((c.lifecycle.state = LifecycleState.notStarted ∨
        c.lifecycle.state = LifecycleState.stopped) →
      c.Stop = (c, [])) :=
  ⟨Stop_active c, Stop_inactive c⟩

/-- Claim C10: ResetOffset and MergeDLQ never modify the coordinator's own
state: the coordinator value after either call is the one before it, so the
group name, topic list, cluster-consumer map, broker-client map, outbound
message channel and done channel status are all unchanged. -/
theorem resetOffset_mergeDLQ_frame (c : MultiClusterConsumer)
    (cluster topicName : String) (partition : Int) (offsets : OffsetRange)
    (topic : ConsumerTopic) (ranges : List (Int × OffsetRange)) :
    (applyOpTrace c (Op.resetOffset cluster topicName partition offsets)).1 = c
    ∧ (applyOpTrace c (Op.mergeDLQ topic ranges)).1 = c :=
  ⟨rfl, rfl⟩

/-- Stop never touches the message channel, and the done channel either keeps
its status or is closed. -/
lemma Stop_fields (c : MultiClusterConsumer) :
    (c.Stop).1.msgC = c.msgC
    ∧ ((c.Stop).1.doneC = c.doneC ∨ (c.Stop).1.doneC = ChannelState.closed) := by
  cases hstate : c.lifecycle.state with
  | notStarted => rw [Stop_inactive c (Or.inl hstate)]; exact ⟨rfl, Or.inl rfl⟩
  | stopped => rw [Stop_inactive c (Or.inr hstate)]; exact ⟨rfl, Or.inl rfl⟩
  | starting => rw [Stop_active c (Or.inl hstate)]; exact ⟨rfl, Or.inr rfl⟩
  | running => rw [Stop_active c (Or.inr hstate)]; exact ⟨rfl, Or.inr rfl⟩

/-- Start never touches the message channel, and the done channel either
keeps its status or is closed. -/
lemma Start_fields (c : MultiClusterConsumer) :
    ((c.Start).2.1).msgC = c.msgC
    ∧ (((c.Start).2.1).doneC = c.doneC
      ∨ ((c.Start).2.1).doneC = ChannelState.closed) := by
  cases hstate : c.lifecycle.state with
  | notStarted =>
    cases hl : (startLoop c.clusterConsumerMap).1 with
    | none => rw [Start_notStarted_ok c hstate hl]; exact ⟨rfl, Or.inl rfl⟩
    | some e => rw [Start_notStarted_err c e hstate hl]; exact ⟨rfl, Or.inr rfl⟩
  | starting =>
    rw [Start_already c (Or.inl hstate)]
    exact Stop_fields c
  | running =>
    rw [Start_already c (Or.inr (Or.inl hstate))]
    exact Stop_fields c
  | stopped =>
    rw [Start_already c (Or.inr (Or.inr hstate))]
    exact Stop_fields c

/-- No coordinator call touches the message channel, and each call either
keeps the done channel status or closes it. -/
lemma applyOp_fields (c : MultiClusterConsumer) (op : Op) :
    (applyOpTrace c op).1.msgC = c.msgC
    ∧ ((applyOpTrace c op).1.doneC = c.doneC
      ∨ (applyOpTrace c op).1.doneC = ChannelState.closed) := by
  cases op with
  | start => exact Start_fields c
  | stop => exact Stop_fields c
  | resetOffset cluster topicName partition offsets => exact ⟨rfl, Or.inl rfl⟩
  | mergeDLQ topic ranges => exact ⟨rfl, Or.inl rfl⟩
  | name => exact ⟨rfl, Or.inl rfl⟩
  | topics => exact ⟨rfl, Or.inl rfl⟩
  | closed => exact ⟨rfl, Or.inl rfl⟩
  | messages => exact ⟨rfl, Or.inl rfl⟩

/-- A trajectory always begins with its starting state. -/
lemma trajectory_head (c : MultiClusterConsumer) (ops : List Op) :
    ∃ t, trajectory c ops = c :: t := by
  cases ops with
  | nil => exact ⟨[], rfl⟩
  | cons op ops => exact ⟨_, rfl⟩

/-- Once the done channel is closed, no further open-to-closed transition
happens along any continuation. -/
lemma doneTransitions_zero_of_closed (ops : List Op) (c : MultiClusterConsumer)
    (h : c.doneC = ChannelState.closed) :
    doneTransitions (trajectory c ops) = 0 := by
  induction ops generalizing c with
  | nil => rfl
  | cons op ops ih =>
    have h2 : (applyOpTrace c op).1.doneC = ChannelState.closed := by
      rcases (applyOp_fields c op).2 with hh | hh
      · rw [hh, h]
      · exact hh
    obtain ⟨t, ht⟩ := trajectory_head (applyOpTrace c op).1 ops
    show doneTransitions (c :: trajectory (applyOpTrace c op).1 ops) = 0
    rw [ht]
    show (if c.doneC = ChannelState.opened ∧
        (applyOpTrace c op).1.doneC = ChannelState.closed then 1 else 0)
      + doneTransitions ((applyOpTrace c op).1 :: t) = 0
    rw [if_neg (by rw [h]; rintro ⟨hh, -⟩; cases hh), ← ht, ih _ h2]

/-- Along any sequence of coordinator calls, the done channel moves from open
to closed at most once. -/
lemma doneTransitions_le_one (ops : List Op) (c : MultiClusterConsumer) :
    doneTransitions (trajectory c ops) ≤ 1 := by
  induction ops generalizing c with
  | nil => exact Nat.zero_le 1
  | cons op ops ih =>
    obtain ⟨t, ht⟩ := trajectory_head (applyOpTrace c op).1 ops
    show doneTransitions (c :: trajectory (applyOpTrace c op).1 ops) ≤ 1
    rw [ht]
    show (if c.doneC = ChannelState.opened ∧
        (applyOpTrace c op).1.doneC = ChannelState.closed then 1 else 0)
      + doneTransitions ((applyOpTrace c op).1 :: t) ≤ 1
    rw [← ht]
    by_cases hc : (applyOpTrace c op).1.doneC = ChannelState.closed
    · rw [doneTransitions_zero_of_closed ops _ hc]
      split <;> simp
    · rw [if_neg (fun hh => hc hh.2)]
      simpa using ih (applyOpTrace c op).1

/-- Claim C7: the done channel returned by Closed() is open on a freshly
constructed coordinator, and over any sequence of coordinator calls it
transitions from open to closed at most one time, however many times Stop is
called in the sequence. -/
theorem doneSignal_closes_at_most_once (groupName : String)
    (topics : List ConsumerTopic) (ccm : List (String × ClusterConsumer))
    (scm : List (String × SaramaClient)) (msgC : ChannelState) (ops : List Op) :
    (NewMultiClusterConsumer groupName topics ccm scm msgC).Closed
      = ChannelState.opened
    ∧ doneTransitions
        (trajectory (NewMultiClusterConsumer groupName topics ccm scm msgC) ops)
      ≤ 1 :=
  ⟨rfl, doneTransitions_le_one ops _⟩

/-- No sequence of coordinator calls changes the message channel field. -/
lemma runOps_msgC (ops : List Op) (c : MultiClusterConsumer) :
    (runOpsTrace c ops).1.msgC = c.msgC := by
  induction ops generalizing c with
  | nil => rfl
  | cons op ops ih =>
    show (runOpsTrace (applyOpTrace c op).1 ops).1.msgC = c.msgC
    rw [ih (applyOpTrace c op).1, (applyOp_fields c op).1]

/-- Claim C8: no coordinator call (Start, Stop, ResetOffset, MergeDLQ, Name,
Topics, Closed, Messages) ever closes the shared outbound message channel:
after any sequence of calls, the channel returned by Messages() has the same
status as before the sequence — in particular it stays open when it started
open. -/
theorem messages_channel_stays_open (c : MultiClusterConsumer) (ops : List Op) :
    ((runOpsTrace c ops).1).Messages = c.Messages := by
  show (runOpsTrace c ops).1.msgC = c.msgC
  exact runOps_msgC ops c

/-- Claim C9 counterexample: calling PartialConstructionError on the option
freshly returned by EnablePartialConstruction, before any error list has been
attached, does not return a value at all — it dereferences the nil errs
pointer, so the claim that the call returns without failure is false at this
input. -/
theorem partialConstructionError_fresh_option_nil_deref :
    PartialConstructionError EnablePartialConstruction = GoResult.nilDeref := rfl

/-- Claim C9 (amended): PartialConstructionError returns nil when the option
is not a partial-construction option, and returns the recorded error list
when the option is a partial-construction option with an attached error list;
on a freshly created EnablePartialConstruction() option, to which no error
list has yet been attached, it dereferences a nil pointer instead of
returning. -/
theorem partialConstructionError_behavior :
    (PartialConstructionError ConsumerOption.OtherOpt = GoResult.ret [])
    ∧ (∀ (enabled : Bool) (el : ConsumerErrorList),
        PartialConstructionError (ConsumerOption.PartialConstructionOpt enabled (some el))
          = GoResult.ret el.errs)
    ∧ PartialConstructionError EnablePartialConstruction = GoResult.nilDeref :=
  ⟨rfl, fun _ _ => rfl, rfl⟩

/-- Witness for claim C1: on the concrete fresh coordinator with consumers a
(healthy) and b (start fails with "start failed"), Start returns exactly that
first loop error. -/
theorem start_ok_iff_all_consumers_ok_witness :
    (cStartErr.Start).1 = some "start failed" := by
  have h := (start_ok_iff_all_consumers_ok cStartErr rfl).2.1
  rw [h]
  rfl

/-- Witness for claim C2: on the same concrete coordinator, the failing Start
call leaves the stop of the healthy consumer a in its effect trace. -/
theorem start_error_stops_every_consumer_witness :
    Effect.ccStop "a" ∈ (cStartErr.Start).2.2 := by
  have h := start_error_stops_every_consumer cStartErr "start failed"
    (by decide) (by decide)
  exact h ("a", okCC) (List.mem_cons_self _ _)

/-- Witness for claim C3: against the empty coordinator a lookup fails with
the lookup error and no effect, and against the registered dlq-cluster the
consumer's own failing reset result is passed through unchanged. -/
theorem resetOffset_lookup_spec_witness :
    (cEmpty.ResetOffset "x" "t" 0 testRange = (some "no cluster consumer found", []))
    ∧ (cReset.ResetOffset "dlq-cluster" "unit-test-dlq" 0 testRange
      = (some "boom",
        [Effect.ccResetOffset "dlq-cluster" "unit-test-dlq" 0 testRange])) :=
  ⟨(resetOffset_lookup_spec cEmpty "x" "t" 0 testRange).1 rfl,
    (resetOffset_lookup_spec cReset "dlq-cluster" "unit-test-dlq" 0 testRange).2
      failResetCC rfl⟩

/-- Witness for claim C4: with both partitions 0 and 1 failing with "boom",
MergeDLQ returns the aggregate error with both attributed entries joined by a
comma. -/
theorem mergeDLQ_error_aggregation_witness :
    (cReset.MergeDLQ testTopic [(0, testRange), (1, testRange)]).1
      = some "DLQ merge failed for partition=0 err=boom,partition=1 err=boom" := by
  have h := (mergeDLQ_error_aggregation cReset testTopic
    [(0, testRange), (1, testRange)]).2.1
  rw [h]
  rfl

/-- Witness for claim C5: the single-partition merge against the registered
dlq-cluster delegates exactly one reset with the dead-letter cluster name,
dead-letter topic name and that partition's offset range. -/
theorem mergeDLQ_resets_dlq_topic_witness :
    (cReset.MergeDLQ testTopic [(0, testRange)]).2
      = [Effect.ccResetOffset "dlq-cluster" "unit-test-dlq" 0 testRange] := by
  have h := mergeDLQ_resets_dlq_topic cReset testTopic [(0, testRange)]
    failResetCC rfl
  rw [h]
  rfl

/-- Witness for claim C6: on a running coordinator the teardown stops both
consumers, closes the (close-failing) broker client and closes the done
channel, in that order; on a never-started coordinator Stop is a no-op. -/
theorem stop_teardown_spec_witness :
    (cActive.Stop = ({ cActive with
        doneC := ChannelState.closed
        lifecycle := { name := "unit-test-cg-consumer", state := LifecycleState.stopped } },
      [Effect.ccStop "a", Effect.ccStop "b", Effect.clientClose "a", Effect.closeDoneC]))
    ∧ cEmpty.Stop = (cEmpty, []) :=
  ⟨(stop_teardown_spec cActive).1 (Or.inr rfl),
    (stop_teardown_spec cEmpty).2 (Or.inl rfl)⟩

end KafkaClient
